import Mathlib

/-!
Verification of the detection-and-fusion engine of the security scanner.

The client side (`src/client/src/lib/patternMatching.ts`,
`src/client/src/lib/aiAnalysis.ts`) works with findings whose severities are
the uppercase strings `"CRITICAL" | "HIGH" | "MEDIUM" | "LOW"`, confidence on a
0–100 scale, and a regex-based pattern matcher.  The server side
(`src/server/storage.ts` and the Gemini analysis module) works with lowercase
severities `"low" | "medium" | "high" | "critical"` and produces fallback
security scores.  Both are embedded below, faithfully to the TypeScript
source, with JavaScript string/regex behaviour made explicit.
-/

namespace Scanner

/-- Client-side severity, the union type `"CRITICAL" | "HIGH" | "MEDIUM" | "LOW"`
from `VulnerabilityPattern` in `patternMatching.ts`. -/
inductive Severity where
  | CRITICAL
  | HIGH
  | MEDIUM
  | LOW
deriving DecidableEq, Repr

/-- The client-side `Vulnerability` record (fields as constructed by
`detectPatterns` and consumed by `combineAnalysisResults`): id, type, severity,
line (1-based), column, message, suggestion, confidence (0–100 scale),
detectionMethod. -/
structure Vulnerability where
  id : String
  type : String
  severity : Severity
  line : Nat
  column : Int
  message : String
  suggestion : String
  confidence : Int
  detectionMethod : String
deriving DecidableEq, Repr

/-! ### JavaScript string primitives

`combineAnalysisResults` and `detectPatterns` use `String.prototype.includes`,
`String.prototype.indexOf`, `split`, `toLowerCase`, `trim`.  We embed them on
Lean strings (viewed as lists of characters). -/

/-- `s.includes(t)` of JavaScript: `t` occurs as a contiguous substring of `s`
(the empty string occurs in every string). -/
def strIncludes (s t : String) : Bool :=
  (List.range (s.data.length + 1)).any
    (fun i => (s.data.drop i).take t.data.length == t.data)

/-- `s.indexOf(t)` of JavaScript: index of the first occurrence of `t` in `s`,
or `-1` when there is none. -/
def jsIndexOf (s t : String) : Int :=
  match (List.range (s.data.length + 1)).find?
      (fun i => (s.data.drop i).take t.data.length == t.data) with
  | some i => (i : Int)
  | none => -1

/-- `s.toLowerCase()` (ASCII, which is all the engine ever compares). -/
def jsToLower (s : String) : String :=
  ⟨s.data.map Char.toLower⟩

/-- JavaScript whitespace for `trim` / `\s` (ASCII part). -/
def isJsWhitespace (c : Char) : Bool :=
  c == ' ' || c == '\t' || c == '\n' || c == '\r' || c == '\x0b' || c == '\x0c'

/-- `s.trim()` of JavaScript: strip leading and trailing whitespace. -/
def jsTrim (s : String) : String :=
  ⟨(s.data.dropWhile isJsWhitespace).reverse.dropWhile isJsWhitespace |>.reverse⟩

/-- `s.startsWith(t)`: `t` is a prefix of `s`. -/
def jsStartsWith (s t : String) : Bool :=
  t.data.isPrefixOf s.data

/-- The single-quote character `'` (written via its code point). -/
def squot : Char := Char.ofNat 39

/-- `s.split(sep)[0]` for a one-character separator: everything before the
first occurrence of `sep` (the whole string when `sep` does not occur). -/
def firstSplitField (s : String) (sep : Char) : String :=
  ⟨s.data.takeWhile (fun c => c != sep)⟩

/-- `s.split(sep)` of JavaScript for a one-character separator, on character
lists: the empty input yields `[[]]`, i.e. `''.split(sep)` is `['']`. -/
def splitOnChar (sep : Char) : List Char → List (List Char)
  | [] => [[]]
  | c :: cs =>
    match splitOnChar sep cs with
    | [] => [[]]
    | fld :: rest => if c == sep then [] :: fld :: rest else (c :: fld) :: rest

/-- `s.split(sep)` of JavaScript for a one-character separator. -/
def jsSplit (s : String) (sep : Char) : List String :=
  (splitOnChar sep s.data).map String.mk

/-! ### The fusion engine: `combineAnalysisResults` (aiAnalysis.ts 121–158)

The TypeScript mutates the first line-close element of `patternResults` in
place and pushes novel AI findings at the end of `combined`, which starts as a
shallow copy of `patternResults` (shared references, so the mutations are
visible in the result).  We model the pass as a fold over the AI findings
carrying the current pattern list (element-wise updated) and the list of
appended findings. -/

/-- `Math.abs(patternVuln.line - aiVuln.line) <= 1`. -/
def lineClose (p ai : Vulnerability) : Bool :=
  ((p.line : Int) - (ai.line : Int)).natAbs ≤ 1

/-- The overlap test of `combineAnalysisResults`:
`Math.abs(patternVuln.line - aiVuln.line) <= 1 &&
 patternVuln.type.toLowerCase().includes(aiVuln.type.toLowerCase().split(' ')[0])`. -/
def overlapTest (p ai : Vulnerability) : Bool :=
  lineClose p ai &&
    strIncludes (jsToLower p.type) (firstSplitField (jsToLower ai.type) ' ')

/-- The in-place mutation applied to the overlapping pattern finding:
confidence `min(+15, 100)`, method `"HYBRID"`, and the AI suggestion appended
as `" AI suggests: …"` when non-empty and different. -/
def boostOverlap (p ai : Vulnerability) : Vulnerability :=
  { p with
    confidence := min (p.confidence + 15) 100
    detectionMethod := "HYBRID"
    suggestion :=
      if ai.suggestion ≠ "" ∧ ai.suggestion ≠ p.suggestion then
        p.suggestion ++ " AI suggests: " ++ ai.suggestion
      else p.suggestion }

/-- The novel-finding case: pushed with method `"HYBRID"` and confidence
`min(aiVuln.confidence + 10, 100)`. -/
def hybridNew (ai : Vulnerability) : Vulnerability :=
  { ai with detectionMethod := "HYBRID", confidence := min (ai.confidence + 10) 100 }

/-- `list.find(cond)` followed by an in-place mutation of the found element:
the first element satisfying `cond` is replaced by its image under `f`; when
none satisfies it the list is unchanged (the source's `if (overlappingPattern)`
guard). -/
def mutateFirst (cond : Vulnerability → Bool) (f : Vulnerability → Vulnerability) :
    List Vulnerability → List Vulnerability
  | [] => []
  | p :: ps => if cond p then f p :: ps else p :: mutateFirst cond f ps

/-- One iteration of the `aiResults.forEach` loop.  State: the current pattern
list (mutations applied so far) and the findings pushed so far.  Note two
quirks of the source, preserved exactly: the `hasOverlap` test uses the full
overlap condition, but the `find` that selects the finding to mutate checks
only the line-distance condition; and both scan `patternResults`, never the
appended findings. -/
def combineStep (acc : List Vulnerability × List Vulnerability)
    (ai : Vulnerability) : List Vulnerability × List Vulnerability :=
  let pats := acc.1
  let extra := acc.2
  let hasOverlap := pats.any (fun p => overlapTest p ai)
  if !hasOverlap then
    (pats, extra ++ [hybridNew ai])
  else
    (mutateFirst (fun p => lineClose p ai) (fun p => boostOverlap p ai) pats, extra)

/-- `combineAnalysisResults(patternResults, aiResults)` from
`src/client/src/lib/aiAnalysis.ts`, lines 121–158. -/
def combineAnalysisResults (patternResults aiResults : List Vulnerability) :
    List Vulnerability :=
  let st := aiResults.foldl combineStep (patternResults, [])
  st.1 ++ st.2

/-! ### The confidence scorer: `calculateConfidence` (patternMatching.ts 237–260) -/

/-- The severity bonus of `calculateConfidence`: +20 critical, +15 high,
+10 medium, +0 low. -/
def severityBonus : Severity → Int
  | .CRITICAL => 20
  | .HIGH => 15
  | .MEDIUM => 10
  | .LOW => 0

/-- `calculateConfidence(pattern, match, line)` from
`src/client/src/lib/patternMatching.ts`, lines 237–260: base 70, severity
bonus, +10 when the trimmed line does not start with a comment marker, −20
when the lowercased line contains `test` or `mock`, clamped by
`Math.min(100, Math.max(30, confidence))`.  The matched text is accepted (as
in the source) but unused. -/
def calculateConfidence (sev : Severity) (matched : String) (line : String) : Int :=
  let confidence : Int := 70
  let confidence := confidence + severityBonus sev
  let confidence :=
    if !(jsStartsWith (jsTrim line) "//") && !(jsStartsWith (jsTrim line) "/*")
        && !(jsStartsWith (jsTrim line) "#") then
      confidence + 10
    else confidence
  let confidence :=
    if strIncludes (jsToLower line) "test" || strIncludes (jsToLower line) "mock" then
      confidence - 20
    else confidence
  min 100 (max 30 confidence)

/-! ### A JavaScript regex engine for the constructs of the signature registry

Every regex in `VULNERABILITY_PATTERNS` uses the flags `gi` and only:
literal text, alternation of literals, character classes (`[...]`, `[^...]`,
ranges), `.`, `\s`, `\b`, negative lookahead `(?!...)`, and the quantifiers
`*`, `+`, `{n,}` — each quantifier applied to a single-character matcher.
The engine below implements exactly that subset with JavaScript's
leftmost-first, greedy, backtracking semantics and the `g`-flag match loop of
`String.prototype.match`. -/

/-- A single-character matcher (the body of every quantifier in the registry). -/
inductive CharClass where
  /-- `.` — any character except line terminators. -/
  | any
  /-- `\s`. -/
  | ws
  /-- `[c₁c₂…]`. -/
  | oneOf (cs : List Char)
  /-- `[^c₁c₂…]`. -/
  | noneOf (cs : List Char)
  /-- `[r₁-r₂… c…]`: ranges plus extra single characters. -/
  | inRanges (rs : List (Char × Char)) (cs : List Char)
deriving Repr

/-- Case-insensitive character comparison (the `i` flag, ASCII). -/
def eqCI (a b : Char) : Bool :=
  a.toLower == b.toLower

/-- Does character `c` fall in range `r` (case-insensitively, `i` flag)? -/
def inRange (r : Char × Char) (c : Char) : Bool :=
  (r.1 ≤ c && c ≤ r.2) || (r.1 ≤ c.toLower && c.toLower ≤ r.2)
    || (r.1 ≤ c.toUpper && c.toUpper ≤ r.2)

/-- Whether character `c` matches the class. -/
def ccMatch : CharClass → Char → Bool
  | .any, c => !(c == '\n' || c == '\r')
  | .ws, c => isJsWhitespace c
  | .oneOf cs, c => cs.any (eqCI c)
  | .noneOf cs, c => !(cs.any (eqCI c))
  | .inRanges rs cs, c => rs.any (fun r => inRange r c) || cs.any (eqCI c)

/-- `\w` for the purposes of `\b`. -/
def isWordChar (c : Char) : Bool :=
  ('a' ≤ c && c ≤ 'z') || ('A' ≤ c && c ≤ 'Z') || ('0' ≤ c && c ≤ '9') || c == '_'

/-- The regex abstract syntax used by the registry. -/
inductive RE where
  /-- A literal string (matched case-insensitively: `i` flag). -/
  | lit (t : String)
  /-- One character of a class. -/
  | cls (c : CharClass)
  /-- Concatenation. -/
  | seq (a b : RE)
  /-- Alternation (left preferred). -/
  | alt (a b : RE)
  /-- `c*` (greedy). -/
  | star (c : CharClass)
  /-- `c+` (greedy). -/
  | plus (c : CharClass)
  /-- `c{n,}` (greedy). -/
  | repAtLeast (c : CharClass) (n : Nat)
  /-- `(?!a)` — negative lookahead, zero-width. -/
  | nla (a : RE)
  /-- `\b` — word boundary, zero-width. -/
  | wb
deriving Repr

/-- Sequencing of several regexes, right-nested. -/
def reSeq (rs : List RE) : RE :=
  match rs with
  | [] => .lit ""
  | [r] => r
  | r :: rest => .seq r (reSeq rest)

/-- Alternation of several literal words, left-nested as written. -/
def litAlt (ws : List String) : RE :=
  match ws with
  | [] => .lit ""
  | [w] => .lit w
  | w :: rest => .alt (.lit w) (litAlt rest)

/-- Does the literal `t` occur (case-insensitively) in `s` at position `i`? -/
def litAt (t : String) (s : List Char) (i : Nat) : Bool :=
  ((s.drop i).take t.data.length).map Char.toLower == t.data.map Char.toLower

/-- Length of the run of characters of class `c` in `s` starting at `i`. -/
def runLen (c : CharClass) (s : List Char) (i : Nat) : Nat :=
  ((s.drop i).takeWhile (ccMatch c)).length

/-- End positions, in match-priority order, of a greedy quantifier over class
`c` starting at `i` with at least `lo` repetitions: `i+k, i+k−1, …, i+lo`
where `k` is the run length (empty when `k < lo`).  Because the body consumes
exactly one character per repetition this is exactly the JavaScript
backtracking order. -/
def greedyEnds (c : CharClass) (lo : Nat) (s : List Char) (i : Nat) : List Nat :=
  let k := runLen c s i
  if lo ≤ k then (List.range (k + 1 - lo)).map (fun t => i + k - t) else []

/-- Is position `i` a word boundary of `s`? -/
def atBoundary (s : List Char) (i : Nat) : Bool :=
  let before := if i == 0 then false else
    match s.get? (i - 1) with
    | some c => isWordChar c
    | none => false
  let here :=
    match s.get? i with
    | some c => isWordChar c
    | none => false
  before != here

/-- All end positions of a match of `r` in `s` starting at position `i`, in
JavaScript priority order (leftmost alternative first, greedy quantifiers
longest first).  The head, when present, is the end position the JavaScript
engine reports. -/
def reEnds : RE → List Char → Nat → List Nat
  | .lit t, s, i => if litAt t s i then [i + t.data.length] else []
  | .cls c, s, i =>
    match s.get? i with
    | some ch => if ccMatch c ch then [i + 1] else []
    | none => []
  | .seq a b, s, i => (reEnds a s i).flatMap (fun j => reEnds b s j)
  | .alt a b, s, i => reEnds a s i ++ reEnds b s i
  | .star c, s, i => greedyEnds c 0 s i
  | .plus c, s, i => greedyEnds c 1 s i
  | .repAtLeast c n, s, i => greedyEnds c n s i
  | .nla a, s, i => if (reEnds a s i).isEmpty then [i] else []
  | .wb, s, i => if atBoundary s i then [i] else []

/-- First match of `r` in `s` at or after position `i`: the JavaScript engine
tries successive start positions and at the first that matches returns the
highest-priority end.  Result: `(start, end)`.  `fuel` bounds the number of
start positions tried; `s.length + 1` suffices from position 0 because the
engine stops once the position passes the end of the string. -/
def findFrom (r : RE) (s : List Char) : Nat → Nat → Option (Nat × Nat)
  | 0, _ => none
  | fuel + 1, i =>
    if s.length < i then none
    else
      match (reEnds r s i).head? with
      | some e => some (i, e)
      | none => findFrom r s fuel (i + 1)

/-- The match loop of `String.prototype.match` with a `g` regex: repeatedly
take the first match from `lastIndex`, collect the matched substring, and
continue from the match end (advancing by one on an empty match).  `fuel`
bounds the iteration count; `s.length + 1` always suffices because the start
position strictly increases. -/
def jsMatchLoop (r : RE) (s : List Char) : Nat → Nat → List String
  | 0, _ => []
  | fuel + 1, i =>
    match findFrom r s (s.length + 1) i with
    | none => []
    | some (p, e) =>
      String.mk ((s.drop p).take (e - p)) ::
        jsMatchLoop r s fuel (if p < e then e else p + 1)

/-- `line.match(r)` for a `gi` regex `r`: `none` models JavaScript's `null`
(no match anywhere), otherwise the list of matched substrings. -/
def jsMatchAll (r : RE) (line : String) : Option (List String) :=
  match jsMatchLoop r line.data (line.data.length + 1) 0 with
  | [] => none
  | ms => some ms

/-! ### The signature registry: `VULNERABILITY_PATTERNS` (patternMatching.ts 14–185)

Each entry transcribes one element of the TypeScript array; the `pattern`
field is the abstract syntax of the regex literal written in the source
(flags `gi` are built into the engine above). -/

/-- The `VulnerabilityPattern` record of `patternMatching.ts`. -/
structure VulnerabilityPattern where
  id : String
  name : String
  pattern : RE
  severity : Severity
  description : String
  suggestion : String
  languages : List String

/-- `['"]` -/
def quoteCC : CharClass := .oneOf [squot, '"']

/-- `/(SELECT|INSERT|UPDATE|DELETE|FROM|WHERE).*\+.*['"]/gi` -/
def sqlInjection1RE : RE :=
  reSeq [litAlt ["SELECT", "INSERT", "UPDATE", "DELETE", "FROM", "WHERE"],
    .star .any, .lit "+", .star .any, .cls quoteCC]

/-- `/(SELECT|INSERT|UPDATE|DELETE|FROM|WHERE).*\$\{.*\}/gi` -/
def sqlInjection2RE : RE :=
  reSeq [litAlt ["SELECT", "INSERT", "UPDATE", "DELETE", "FROM", "WHERE"],
    .star .any, .lit "$\x7b", .star .any, .lit "\x7d"]

/-- `/\.(query|execute|executeSql)\s*\(\s*['"]\s*(SELECT|INSERT|UPDATE|DELETE).*[\+\$]/gi` -/
def sqlInjection3RE : RE :=
  reSeq [.lit ".", litAlt ["query", "execute", "executeSql"], .star .ws,
    .lit "(", .star .ws, .cls quoteCC, .star .ws,
    litAlt ["SELECT", "INSERT", "UPDATE", "DELETE"], .star .any,
    .cls (.oneOf ['+', '$'])]

/-- `/\.innerHTML\s*=\s*(?!['"][^<>]*['"])/gi` -/
def xss1RE : RE :=
  reSeq [.lit ".innerHTML", .star .ws, .lit "=", .star .ws,
    .nla (reSeq [.cls quoteCC, .star (.noneOf ['<', '>']), .cls quoteCC])]

/-- `/document\.write\s*\(/gi` -/
def xss2RE : RE :=
  reSeq [.lit "document.write", .star .ws, .lit "("]

/-- `/\beval\s*\(/gi` -/
def xss3RE : RE :=
  reSeq [.wb, .lit "eval", .star .ws, .lit "("]

/-- `/(password|passwd|pwd|secret|key|token|api_key)\s*[:=]\s*['"][^'"]{3,}['"]/gi` -/
def auth1RE : RE :=
  reSeq [litAlt ["password", "passwd", "pwd", "secret", "key", "token", "api_key"],
    .star .ws, .cls (.oneOf [':', '=']), .star .ws, .cls quoteCC,
    .repAtLeast (.noneOf [squot, '"']) 3, .cls quoteCC]

/-- `/password.*\.length\s*[<>=]+\s*[1-7]\b/gi` -/
def auth2RE : RE :=
  reSeq [.lit "password", .star .any, .lit ".length", .star .ws,
    .plus (.oneOf ['<', '>', '=']), .star .ws,
    .cls (.inRanges [('1', '7')] []), .wb]

/-- `/\.(delete|update|create|admin).*\((?![^)]*auth|[^)]*token|[^)]*session)/gi` -/
def auth3RE : RE :=
  reSeq [.lit ".", litAlt ["delete", "update", "create", "admin"], .star .any,
    .lit "(",
    .nla (.alt (reSeq [.star (.noneOf [')']), .lit "auth"])
      (.alt (reSeq [.star (.noneOf [')']), .lit "token"])
        (reSeq [.star (.noneOf [')']), .lit "session"])))]

/-- `/\b(md5|sha1|des|rc4)\b/gi` -/
def crypto1RE : RE :=
  reSeq [.wb, litAlt ["md5", "sha1", "des", "rc4"], .wb]

/-- `/(encrypt|decrypt|cipher).*['"][a-zA-Z0-9+/=]{16,}['"]/gi` -/
def crypto2RE : RE :=
  reSeq [litAlt ["encrypt", "decrypt", "cipher"], .star .any, .cls quoteCC,
    .repAtLeast (.inRanges [('a', 'z'), ('A', 'Z'), ('0', '9')] ['+', '/', '=']) 16,
    .cls quoteCC]

/-- `/req\.(body|params|query)\.[a-zA-Z_][a-zA-Z0-9_]*(?![^;]*\.(validate|sanitize|escape|length|match|test))/gi` -/
def input1RE : RE :=
  reSeq [.lit "req.", litAlt ["body", "params", "query"], .lit ".",
    .cls (.inRanges [('a', 'z'), ('A', 'Z')] ['_']),
    .star (.inRanges [('a', 'z'), ('A', 'Z'), ('0', '9')] ['_']),
    .nla (reSeq [.star (.noneOf [';']), .lit ".",
      litAlt ["validate", "sanitize", "escape", "length", "match", "test"]])]

/-- `/\.\.(\/|\\)|\.\.%2f|\.\.%5c/gi` -/
def input2RE : RE :=
  .alt (reSeq [.lit "..", .alt (.lit "/") (.lit "\\")])
    (.alt (.lit "..%2f") (.lit "..%5c"))

/-- `/\.(upload|multer|formidable)(?![^;]*\.(fileFilter|limits|fileSize))/gi` -/
def file1RE : RE :=
  reSeq [.lit ".", litAlt ["upload", "multer", "formidable"],
    .nla (reSeq [.star (.noneOf [';']), .lit ".",
      litAlt ["fileFilter", "limits", "fileSize"]])]

/-- `/\.(stack|stackTrace|printStackTrace|error)(?![^;]*log)/gi` -/
def info1RE : RE :=
  reSeq [.lit ".", litAlt ["stack", "stackTrace", "printStackTrace", "error"],
    .nla (reSeq [.star (.noneOf [';']), .lit "log"])]

/-- `/session.*secure:\s*false|session.*httpOnly:\s*false/gi` -/
def session1RE : RE :=
  .alt (reSeq [.lit "session", .star .any, .lit "secure:", .star .ws, .lit "false"])
    (reSeq [.lit "session", .star .any, .lit "httpOnly:", .star .ws, .lit "false"])

/-- `/Access-Control-Allow-Origin.*\*|cors.*origin:\s*true/gi` -/
def cors1RE : RE :=
  .alt (reSeq [.lit "Access-Control-Allow-Origin", .star .any, .lit "*"])
    (reSeq [.lit "cors", .star .any, .lit "origin:", .star .ws, .lit "true"])

/-- The signature registry, `VULNERABILITY_PATTERNS`, in definition order. -/
def VULNERABILITY_PATTERNS : List VulnerabilityPattern := [
  { id := "sql_injection_1",
    name := "SQL Injection - String Concatenation",
    pattern := sqlInjection1RE,
    severity := .CRITICAL,
    description := "SQL query constructed using string concatenation, vulnerable to SQL injection",
    suggestion := "Use parameterized queries or prepared statements instead of string concatenation",
    languages := ["javascript", "typescript", "php", "python", "java", "c#"] },
  { id := "sql_injection_2",
    name := "SQL Injection - Template Literals",
    pattern := sqlInjection2RE,
    severity := .CRITICAL,
    description := "SQL query using template literals with variables, vulnerable to SQL injection",
    suggestion := "Use parameterized queries instead of template literals for SQL queries",
    languages := ["javascript", "typescript"] },
  { id := "sql_injection_3",
    name := "SQL Injection - Dynamic Query Building",
    pattern := sqlInjection3RE,
    severity := .CRITICAL,
    description := "Dynamic SQL query construction detected",
    suggestion := "Use ORM methods or parameterized queries",
    languages := ["javascript", "typescript", "python", "java"] },
  { id := "xss_1",
    name := "XSS - innerHTML Assignment",
    pattern := xss1RE,
    severity := .HIGH,
    description := "Direct assignment to innerHTML without sanitization",
    suggestion := "Use textContent instead of innerHTML, or sanitize input with a library like DOMPurify",
    languages := ["javascript", "typescript"] },
  { id := "xss_2",
    name := "XSS - Document Write",
    pattern := xss2RE,
    severity := .HIGH,
    description := "Using document.write() which can lead to XSS vulnerabilities",
    suggestion := "Use safer DOM manipulation methods like createElement and appendChild",
    languages := ["javascript", "typescript"] },
  { id := "xss_3",
    name := "XSS - Eval Function",
    pattern := xss3RE,
    severity := .CRITICAL,
    description := "Using eval() function which can execute arbitrary code",
    suggestion := "Avoid using eval(). Use JSON.parse() for JSON data or other safe alternatives",
    languages := ["javascript", "typescript", "python"] },
  { id := "auth_1",
    name := "Hardcoded Credentials",
    pattern := auth1RE,
    severity := .CRITICAL,
    description := "Hardcoded credentials found in source code",
    suggestion := "Use environment variables or secure credential storage instead of hardcoding sensitive data",
    languages := ["javascript", "typescript", "python", "java", "c#", "php"] },
  { id := "auth_2",
    name := "Weak Password Validation",
    pattern := auth2RE,
    severity := .MEDIUM,
    description := "Weak password length validation (less than 8 characters)",
    suggestion := "Enforce strong password policies with minimum 8 characters, mixed case, numbers, and symbols",
    languages := ["javascript", "typescript", "python", "java", "c#"] },
  { id := "auth_3",
    name := "Missing Authentication Check",
    pattern := auth3RE,
    severity := .HIGH,
    description := "Potentially sensitive operation without authentication check",
    suggestion := "Add proper authentication and authorization checks before sensitive operations",
    languages := ["javascript", "typescript", "python", "java", "c#", "php"] },
  { id := "crypto_1",
    name := "Weak Cryptographic Algorithm",
    pattern := crypto1RE,
    severity := .HIGH,
    description := "Use of weak or deprecated cryptographic algorithm",
    suggestion := "Use strong cryptographic algorithms like SHA-256, AES-256, or bcrypt for hashing",
    languages := ["javascript", "typescript", "python", "java", "c#", "php"] },
  { id := "crypto_2",
    name := "Hardcoded Encryption Key",
    pattern := crypto2RE,
    severity := .CRITICAL,
    description := "Hardcoded encryption key detected",
    suggestion := "Use secure key management systems and never hardcode encryption keys",
    languages := ["javascript", "typescript", "python", "java", "c#", "php"] },
  { id := "input_1",
    name := "Missing Input Validation",
    pattern := input1RE,
    severity := .MEDIUM,
    description := "Direct use of user input without validation",
    suggestion := "Validate and sanitize all user inputs before processing",
    languages := ["javascript", "typescript"] },
  { id := "input_2",
    name := "Path Traversal Risk",
    pattern := input2RE,
    severity := .HIGH,
    description := "Potential path traversal vulnerability",
    suggestion := "Validate file paths and restrict access to allowed directories only",
    languages := ["javascript", "typescript", "python", "java", "c#", "php"] },
  { id := "file_1",
    name := "Unrestricted File Upload",
    pattern := file1RE,
    severity := .HIGH,
    description := "File upload without proper restrictions",
    suggestion := "Implement file type validation, size limits, and virus scanning for uploads",
    languages := ["javascript", "typescript"] },
  { id := "info_1",
    name := "Error Information Disclosure",
    pattern := info1RE,
    severity := .MEDIUM,
    description := "Potential information disclosure through error messages",
    suggestion := "Log detailed errors server-side but return generic error messages to users",
    languages := ["javascript", "typescript", "python", "java", "c#"] },
  { id := "session_1",
    name := "Insecure Session Configuration",
    pattern := session1RE,
    severity := .MEDIUM,
    description := "Insecure session cookie configuration",
    suggestion := "Set secure: true and httpOnly: true for session cookies in production",
    languages := ["javascript", "typescript"] },
  { id := "cors_1",
    name := "Permissive CORS Policy",
    pattern := cors1RE,
    severity := .MEDIUM,
    description := "Overly permissive CORS policy",
    suggestion := "Restrict CORS to specific trusted domains instead of allowing all origins",
    languages := ["javascript", "typescript"] }
]

/-! ### The pattern matcher: `detectPatterns` (patternMatching.ts 187–235) -/

/-- The `languageMap` object literal of `detectPatterns`; `none` models an
absent key (JavaScript `undefined`). -/
def languageMap : String → Option String
  | "js" => some "javascript"
  | "jsx" => some "javascript"
  | "ts" => some "typescript"
  | "tsx" => some "typescript"
  | "py" => some "python"
  | "java" => some "java"
  | "cs" => some "c#"
  | "php" => some "php"
  | _ => none

/-- The finding pushed for one regex match `m` of signature `p` on `line`
(body of the innermost `matches.forEach`): the column is
`line.indexOf(match)` — the first occurrence of the matched text, whatever
position the match was actually found at — and the id is
`` `${pattern.id}_${lineIndex}_${columnIndex}` ``. -/
def mkFinding (p : VulnerabilityPattern) (lineIndex : Nat) (line : String)
    (m : String) : Vulnerability :=
  let columnIndex := jsIndexOf line m
  { id := p.id ++ "_" ++ toString lineIndex ++ "_" ++ toString columnIndex
    type := p.name
    severity := p.severity
    line := lineIndex + 1
    column := columnIndex
    message := p.description
    suggestion := p.suggestion
    confidence := calculateConfidence p.severity m line
    detectionMethod := "PATTERN" }

/-- The findings contributed by signature `p` on one line
(`line.match(pattern.pattern)` followed by the `matches.forEach` push loop;
a `null` match list contributes nothing). -/
def lineFindings (p : VulnerabilityPattern) (lineIndex : Nat) (line : String) :
    List Vulnerability :=
  match jsMatchAll p.pattern line with
  | none => []
  | some ms => ms.map (fun m => mkFinding p lineIndex line m)

/-- `detectPatterns(code, fileName)` from
`src/client/src/lib/patternMatching.ts`, lines 187–235: split into lines,
derive the language from the file extension, filter the registry, and for
every line × applicable signature push one finding per regex match. -/
def detectPatterns (code : String) (fileName : String) : List Vulnerability :=
  let lines := jsSplit code '\n'
  let fileExtension := jsToLower ((jsSplit fileName '.').getLastD "")
  let currentLanguage := (languageMap fileExtension).getD "unknown"
  let applicablePatterns := VULNERABILITY_PATTERNS.filter (fun p =>
    p.languages.contains currentLanguage || p.languages.contains "all")
  lines.enum.flatMap (fun le =>
    applicablePatterns.flatMap (fun p => lineFindings p le.1 le.2))

/-! ### Dynamic (untyped) invocation of `detectPatterns`

`detectPatterns` is declared over `code: string`, but JavaScript callers can
pass any value.  The very first statement, `code.split('\n')`, throws a
`TypeError` whenever `code` is not a string: property access on
`undefined`/`null` throws, and on any other non-string value `split` is not a
function. -/

/-- A JavaScript value handed to `detectPatterns` as its `code` argument. -/
inductive JsValue where
  | str (s : String)
  | undefinedVal
  | nullv
  | numv (q : ℚ)
  | boolv (b : Bool)
deriving DecidableEq, Repr

/-- `detectPatterns` as invoked dynamically: a string argument runs the
function; any other value throws a `TypeError` at `code.split('\n')`. -/
def detectPatternsJS (code : JsValue) (fileName : String) :
    Except String (List Vulnerability) :=
  match code with
  | .str s => .ok (detectPatterns s fileName)
  | _ => .error "TypeError"

end Scanner

namespace Server

/-!
### The server-side scoring path

`src/unnamed/part_001` (the Gemini analysis module) parses the model's JSON
and normalizes each raw vulnerability: a `severity` outside
`["low","medium","high","critical"]` becomes `"medium"`, and the confidence is
clamped into [0,1] with `0.8` substituted for falsy values.  Both that module
and `src/server/storage.ts` define a `calculateFallbackScore`; the two differ.
Severities are strings here; the weight table has only the four lowercase
keys, so an unknown severity would index `undefined` (modelled by `Option`,
`none` standing for the `NaN` such an access would propagate). -/

/-- The server-side `Vulnerability` of `src/unnamed/part_001` /
`src/server/storage.ts`: lowercase severity string, confidence on the 0–1
scale. -/
structure GVulnerability where
  type : String
  severity : String
  line : Nat
  message : String
  suggestion : String
  confidence : ℚ
deriving DecidableEq, Repr

/-- The valid severity strings, `["low", "medium", "high", "critical"]`. -/
def severityNames : List String := ["low", "medium", "high", "critical"]

/-- The severity normalization applied to each raw collaborator finding in
`analyzeCodeSecurity` (`src/unnamed/part_001`, lines 78–90):
`["low","medium","high","critical"].includes(vuln.severity) ? vuln.severity : "medium"`. -/
def normalizeSeverity (s : String) : String :=
  if s ∈ severityNames then s else "medium"

/-- The confidence normalization of the same mapping:
`Math.max(0, Math.min(1, vuln.confidence || 0.8))` (a falsy — zero —
confidence becomes 0.8). -/
def normalizeConfidence (q : ℚ) : ℚ :=
  max 0 (min 1 (if q = 0 then 0.8 else q))

/-- The weight table `{ critical: 25, high: 15, medium: 8, low: 3 }`;
`none` models indexing the object with an unknown key (`undefined`). -/
def weightOf : String → Option ℚ
  | "critical" => some 25
  | "high" => some 15
  | "medium" => some 8
  | "low" => some 3
  | _ => none

/-- JavaScript `Math.round`: round half towards positive infinity. -/
def jsRound (q : ℚ) : ℤ :=
  ⌊q + 1 / 2⌋

namespace Storage

/-- The body of the `for` loop accumulating
`penalty += weights[vuln.severity] * (vuln.confidence || 0.8)`. -/
def penaltyStep (acc : Option ℚ) (v : GVulnerability) : Option ℚ :=
  match acc, weightOf v.severity with
  | some a, some w => some (a + w * (if v.confidence = 0 then 0.8 else v.confidence))
  | _, _ => none

/-- `calculateFallbackScore` from `src/server/storage.ts`, lines 529–542
(0–10 scale): empty list scores `10.0`; otherwise
`penalty += weights[vuln.severity] * (vuln.confidence || 0.8)` accumulated
over the findings, `score = Math.max(0, 10 - penalty / 10)`, returned as
`Math.round(score * 10) / 10`.  `none` models the `NaN` that an unknown
severity key would propagate to the result. -/
def calculateFallbackScore (vulnerabilities : List GVulnerability) : Option ℚ :=
  if vulnerabilities.length = 0 then some 10
  else
    let penalty := vulnerabilities.foldl penaltyStep (some 0)
    penalty.map (fun p => (jsRound (max 0 (10 - p / 10) * 10) : ℚ) / 10)

end Storage

namespace Gemini

/-- The body of the `reduce` accumulating `total + weights[vuln.severity]`. -/
def penaltyStep (total : Option ℚ) (v : GVulnerability) : Option ℚ :=
  match total, weightOf v.severity with
  | some t, some w => some (t + w)
  | _, _ => none

/-- `calculateFallbackScore` from `src/unnamed/part_001`, lines 161–165
(0–100 scale): `penalty = Σ weights[vuln.severity]` — the confidence is not
consulted — and `score = Math.max(0, 100 - penalty)`, with no rounding and no
special case for the empty list. -/
def calculateFallbackScore (vulnerabilities : List GVulnerability) : Option ℚ :=
  let penalty := vulnerabilities.foldl penaltyStep (some 0)
  penalty.map (fun p => max 0 (100 - p))

end Gemini

end Server

namespace SpecModel

/-!
### Specification-side definitions

These definitions transcribe sentences of the design specification (and of the
claims derived from it), to be compared against the source embeddings above.
-/

open Scanner

/-- The first whitespace-delimited token of a string (leading whitespace
skipped), as used by the specified overlap test. -/
def firstTokenWS (s : String) : String :=
  ⟨(s.data.dropWhile isJsWhitespace).takeWhile (fun c => !isJsWhitespace c)⟩

/-- The overlap condition as the specification words it: the lines differ by
at most one, and the first whitespace-delimited token of the pattern finding's
type is, case-insensitively, a prefix of (or equal to) the first token of the
semantic finding's type. -/
def claimOverlap (p j : Vulnerability) : Bool :=
  ((p.line : Int) - (j.line : Int)).natAbs ≤ 1 &&
    (jsToLower (firstTokenWS p.type)).data.isPrefixOf
      (jsToLower (firstTokenWS j.type)).data

/-- One step of the merge as the specification describes it: find the first
accumulator element satisfying the (full) overlap condition; mutate it when
found, append the boosted semantic finding otherwise. -/
def claimMergeStep (acc : List Vulnerability) (j : Vulnerability) :
    List Vulnerability :=
  if acc.any (fun p => claimOverlap p j) then
    mutateFirst (fun p => claimOverlap p j) (fun p => boostOverlap p j) acc
  else
    acc ++ [hybridNew j]

/-- `merge(P, S)` as the specification describes it: fold the semantic
findings in input order over the accumulator, which starts as `P`. -/
def claimMerge (P S : List Vulnerability) : List Vulnerability :=
  S.foldl claimMergeStep P

/-- The merge algorithm the code actually implements (the amended claim):
process each semantic finding in input order; the overlap *test* asks for an
accumulated pattern finding within one line whose full type string contains
(case-insensitively) the first space-delimited token of the semantic finding's
type, but the finding *mutated* is the first pattern finding within one line,
its type ignored; novel findings are collected at the end in input order, and
appended semantic findings are never considered by later overlap tests. -/
def amendedMergeAux (pats newOnes : List Vulnerability) :
    List Vulnerability → List Vulnerability
  | [] => pats ++ newOnes
  | j :: rest =>
    if pats.any (fun p => overlapTest p j) then
      amendedMergeAux
        (mutateFirst (fun p => lineClose p j) (fun p => boostOverlap p j) pats)
        newOnes rest
    else
      amendedMergeAux pats (newOnes ++ [hybridNew j]) rest

/-- Entry point of the amended merge description. -/
def amendedMerge (P S : List Vulnerability) : List Vulnerability :=
  amendedMergeAux P [] S

/-- The aggregated score exactly as the claim words it, for a given scale
maximum: full marks on an empty list; otherwise each finding contributes
`weight(severity) × confidence` (confidence a fraction of 1), the score is
`max(0, maximum − totalPenalty)` clamped to the valid range and rounded to
one decimal place. -/
def claimAggregate (maximum : ℚ) (vs : List Server.GVulnerability) : ℚ :=
  if vs = [] then maximum
  else
    let totalPenalty :=
      (vs.map (fun v => (Server.weightOf v.severity).getD 0 * v.confidence)).sum
    (Server.jsRound (min maximum (max 0 (maximum - totalPenalty)) * 10) : ℚ) / 10

/-- What the storage fallback score actually computes (the amended claim,
0–10 scale), written as a closed formula: zero or absent confidence is
replaced by 0.8, the summed penalty is divided by 10, and the result of
`max(0, …)` is rounded to one decimal place. -/
def amendedStorageScore (vs : List Server.GVulnerability) : ℚ :=
  if vs = [] then 10
  else
    let totalPenalty :=
      (vs.map (fun v =>
        (Server.weightOf v.severity).getD 0 *
          (if v.confidence = 0 then 0.8 else v.confidence))).sum
    (Server.jsRound (max 0 (10 - totalPenalty / 10) * 10) : ℚ) / 10

/-- What the Gemini-module fallback score actually computes (the amended
claim, 0–100 scale): the penalty is the sum of the severity weights alone —
confidence plays no role — and the score is `max(0, 100 − penalty)`, with no
rounding step. -/
def amendedGeminiScore (vs : List Server.GVulnerability) : ℚ :=
  max 0 (100 - (vs.map (fun v => (Server.weightOf v.severity).getD 0)).sum)

/-- The line whose leading whitespace has been stripped (the wording of the
comment-context clause). -/
def trimLeading (s : String) : String :=
  ⟨s.data.dropWhile isJsWhitespace⟩

/-- The confidence formula exactly as the claim words it: clamp to [30,100]
of 70, plus the severity bonus, plus 10 when the line after stripping leading
whitespace does not start with `//`, `/*` or `#`, minus 20 when the lowercase
line contains `test` or `mock`. -/
def claimConfidence (sev : Severity) (line : String) : Int :=
  min 100 (max 30
    (70 + severityBonus sev
      + (if !(jsStartsWith (trimLeading line) "//")
            && !(jsStartsWith (trimLeading line) "/*")
            && !(jsStartsWith (trimLeading line) "#") then 10 else 0)
      - (if strIncludes (jsToLower line) "test"
            || strIncludes (jsToLower line) "mock" then 20 else 0)))

/-- The identity of a finding: every field except the three the fusion engine
is allowed to mutate in place (confidence, detectionMethod, suggestion).  Two
findings with the same core are the same finding, possibly annotated. -/
def sameCore (a b : Vulnerability) : Prop :=
  a.id = b.id ∧ a.type = b.type ∧ a.severity = b.severity ∧
    a.line = b.line ∧ a.column = b.column ∧ a.message = b.message

end SpecModel

/-! ## Helper lemmas -/

open Scanner in
/-- A nonempty all-non-whitespace prefix survives right-trimming: `t` is a
prefix of `l.rdropWhile isJsWhitespace` exactly when it is a prefix of `l`. -/
lemma prefix_rdropWhile_iff (t l : List Char) (ht : t ≠ [])
    (hws : ∀ c ∈ t, isJsWhitespace c = false) :
    t <+: l.rdropWhile isJsWhitespace ↔ t <+: l := by
  constructor
  · intro h
    exact h.trans ( List.rdropWhile_prefix _ _)
  · rintro ⟨r, rfl⟩
    induction r using List.reverseRecOn with
    | nil =>
      rw [List.append_nil]
      have hself : t.rdropWhile isJsWhitespace = t := by
        rw [List.rdropWhile_eq_self_iff]
        intro hl
        simp [hws _ (List.getLast_mem hl)]
      rw [hself]
    | append_singleton r' x ih =>
      by_cases hx : isJsWhitespace x
      · rw [← List.append_assoc, List.rdropWhile_concat_pos _ _ _ hx]
        exact ih
      · rw [← List.append_assoc, List.rdropWhile_concat_neg _ _ _ hx]
        exact ⟨r' ++ [x], by simp⟩

open Scanner in
/-- `startsWith` sees no difference between full trimming (the code) and
leading-only trimming (the specification's wording), for a nonempty
whitespace-free prefix such as a comment marker. -/
lemma jsStartsWith_trim_eq (s t : String) (ht : t.data ≠ [])
    (hws : ∀ c ∈ t.data, isJsWhitespace c = false) :
    jsStartsWith (jsTrim s) t = jsStartsWith (SpecModel.trimLeading s) t := by
  show (t.data.isPrefixOf ((s.data.dropWhile isJsWhitespace).rdropWhile isJsWhitespace))
      = t.data.isPrefixOf (s.data.dropWhile isJsWhitespace)
  rw [Bool.eq_iff_iff]
  simp only [List.isPrefixOf_iff_prefix]
  exact prefix_rdropWhile_iff t.data _ ht hws

open Scanner in
/-- The confidence scorer's value, branch by branch, lies in [50, 100]. -/
lemma calculateConfidence_bounds (sev : Severity) (m line : String) :
    50 ≤ calculateConfidence sev m line ∧ calculateConfidence sev m line ≤ 100 := by
  unfold calculateConfidence
  cases sev <;> simp only [severityBonus] <;> split_ifs <;> norm_num

/-! ## Claims -/

/-- C4: for every severity, matched text and full line, the confidence scorer
returns the clamp to [30,100] of 70, plus the severity bonus (20/15/10/0),
plus 10 when the line after trimming leading whitespace does not start with
`//`, `/*` or `#`, minus 20 when the lowercase line contains `test` or `mock`;
in particular the result lies in [30, 100]. -/
theorem calculateConfidence_matches_claimed_formula
    (sev : Scanner.Severity) (m line : String) :
    Scanner.calculateConfidence sev m line = SpecModel.claimConfidence sev line ∧
    30 ≤ Scanner.calculateConfidence sev m line ∧
    Scanner.calculateConfidence sev m line ≤ 100 := by
  have h1 := jsStartsWith_trim_eq line "//" (by decide) (by decide)
  have h2 := jsStartsWith_trim_eq line "/*" (by decide) (by decide)
  have h3 := jsStartsWith_trim_eq line "#" (by decide) (by decide)
  have hb := calculateConfidence_bounds sev m line
  refine ⟨?_, by omega, hb.2⟩
  simp only [Scanner.calculateConfidence, SpecModel.claimConfidence]
  rw [h1, h2, h3]
  cases sev <;> split_ifs <;> decide

/-- C9: every confidence value the pattern matcher's scorer produces lies in
[50, 100] — the worst reachable case is 70 + 0 − 20 = 50, so the specified
lower clamp at 30 is never the binding bound. -/
theorem calculateConfidence_implicit_lower_bound
    (sev : Scanner.Severity) (m line : String) :
    50 ≤ Scanner.calculateConfidence sev m line ∧
    Scanner.calculateConfidence sev m line ≤ 100 :=
  calculateConfidence_bounds sev m line

/-- C2: contrary to the claim, scanning a JavaScript file whose source is
exactly the line `"SELECT * FROM users WHERE id = " + userId` produces no
finding at all: the SQL-concatenation regex
`(SELECT|INSERT|UPDATE|DELETE|FROM|WHERE).*\+.*['"]` demands a quote character
after the `+`, and no other registry signature fires on the line, even though
the line contains no `test`/`mock` context. -/
theorem scenarioA_sql_concat_line_yields_no_findings :
    Scanner.detectPatterns "\"SELECT * FROM users WHERE id = \" + userId" "app.js"
      = [] := by
  rfl

open Scanner in
/-- No registry signature matches the empty line. -/
lemma lineFindings_on_empty_line :
    ∀ p ∈ VULNERABILITY_PATTERNS, lineFindings p 0 "" = [] := by decide

/-- C6 (amended): invoked on any string, `detectPatterns` runs totally (never
raises) and empty source text yields the empty finding list; a non-string or
absent source text, however, raises a `TypeError` instead of being treated as
empty input (see the counterexample). -/
theorem detect_total_on_strings_and_empty_yields_nil :
    (∀ (s fileName : String),
      Scanner.detectPatternsJS (.str s) fileName
        = .ok (Scanner.detectPatterns s fileName)) ∧
    ∀ fileName : String, Scanner.detectPatterns "" fileName = [] := by
  refine ⟨fun s fn => rfl, fun fn => ?_⟩
  simp only [Scanner.detectPatterns]
  have hsplit : Scanner.jsSplit "" '\n' = [""] := rfl
  have henum : ([""] : List String).enum = [(0, "")] := rfl
  rw [hsplit, henum]
  simp only [List.flatMap_cons, List.flatMap_nil, List.append_nil]
  rw [List.flatMap_eq_nil_iff]
  intro p hp
  exact lineFindings_on_empty_line p (List.mem_of_mem_filter hp)

/-- C6 counterexample: `detectPatterns` invoked with `undefined` source text
throws a `TypeError` at `code.split('\n')`; it does not return the empty
finding list. -/
theorem detect_on_undefined_raises :
    Scanner.detectPatternsJS .undefinedVal "app.js" = .error "TypeError" ∧
    Scanner.detectPatternsJS .undefinedVal "app.js" ≠ .ok [] :=
  ⟨rfl, fun h => Except.noConfusion h⟩

/-- C10: when a signature's pattern matches the same substring at two distinct
positions of one line, the matcher keeps one finding per match (the finding
list is as long as the match list) but builds both findings from the match
string alone, so both carry the column of the *first* occurrence
(`line.indexOf(match)`) and therefore identical ids. -/
theorem duplicate_match_text_duplicates_finding_id
    (p : Scanner.VulnerabilityPattern) (li : Nat) (line : String)
    (ms : List String) (i j : Nat) (m : String)
    (hms : Scanner.jsMatchAll p.pattern line = some ms)
    (hij : i ≠ j) (hi : ms[i]? = some m) (hj : ms[j]? = some m) :
    (Scanner.lineFindings p li line).length = ms.length ∧
    (Scanner.lineFindings p li line)[i]? = some (Scanner.mkFinding p li line m) ∧
    (Scanner.lineFindings p li line)[j]? = some (Scanner.mkFinding p li line m) ∧
    (Scanner.mkFinding p li line m).column = Scanner.jsIndexOf line m ∧
    (Scanner.mkFinding p li line m).id
      = p.id ++ "_" ++ toString li ++ "_" ++ toString (Scanner.jsIndexOf line m) := by
  unfold Scanner.lineFindings
  rw [hms]
  refine ⟨List.length_map _ _, ?_, ?_, rfl, rfl⟩ <;>
    rw [List.getElem?_map] <;> simp [hi, hj]

/-- C10 witness: the `eval` signature on the line `eval(a); eval(b)` matches
`eval(` at columns 0 and 9; both findings carry column 0 and id `xss_3_0_0`. -/
theorem duplicate_match_text_duplicates_finding_id_witness :
    Scanner.jsMatchAll Scanner.xss3RE "eval(a); eval(b)" = some ["eval(", "eval("] ∧
    (Scanner.lineFindings
        ⟨"xss_3", "XSS - Eval Function", Scanner.xss3RE, .CRITICAL,
          "Using eval() function which can execute arbitrary code",
          "Avoid using eval(). Use JSON.parse() for JSON data or other safe alternatives",
          ["javascript", "typescript", "python"]⟩ 0 "eval(a); eval(b)")[0]?
      = some (Scanner.mkFinding
        ⟨"xss_3", "XSS - Eval Function", Scanner.xss3RE, .CRITICAL,
          "Using eval() function which can execute arbitrary code",
          "Avoid using eval(). Use JSON.parse() for JSON data or other safe alternatives",
          ["javascript", "typescript", "python"]⟩ 0 "eval(a); eval(b)" "eval(") ∧
    (Scanner.lineFindings
        ⟨"xss_3", "XSS - Eval Function", Scanner.xss3RE, .CRITICAL,
          "Using eval() function which can execute arbitrary code",
          "Avoid using eval(). Use JSON.parse() for JSON data or other safe alternatives",
          ["javascript", "typescript", "python"]⟩ 0 "eval(a); eval(b)")[1]?
      = some (Scanner.mkFinding
        ⟨"xss_3", "XSS - Eval Function", Scanner.xss3RE, .CRITICAL,
          "Using eval() function which can execute arbitrary code",
          "Avoid using eval(). Use JSON.parse() for JSON data or other safe alternatives",
          ["javascript", "typescript", "python"]⟩ 0 "eval(a); eval(b)" "eval(") := by
  have h := duplicate_match_text_duplicates_finding_id
    ⟨"xss_3", "XSS - Eval Function", Scanner.xss3RE, .CRITICAL,
      "Using eval() function which can execute arbitrary code",
      "Avoid using eval(). Use JSON.parse() for JSON data or other safe alternatives",
      ["javascript", "typescript", "python"]⟩ 0 "eval(a); eval(b)"
    ["eval(", "eval("] 0 1 "eval(" (by rfl) (by decide) (by rfl) (by rfl)
  exact ⟨by rfl, h.2.1, h.2.2.1⟩

/-- C8: merging a pattern-finding list with an empty semantic-finding list
returns the list itself — no element is added, removed, or mutated. -/
theorem merge_with_empty_semantic_list_is_identity
    (P : List Scanner.Vulnerability) :
    Scanner.combineAnalysisResults P [] = P := by
  simp [Scanner.combineAnalysisResults]

open Scanner SpecModel in
/-- The in-place boost preserves a finding's identity fields. -/
lemma sameCore_boostOverlap (p ai : Vulnerability) : sameCore (boostOverlap p ai) p :=
  ⟨rfl, rfl, rfl, rfl, rfl, rfl⟩

open SpecModel in
/-- `sameCore` is transitive. -/
lemma sameCore_trans {a b c : Scanner.Vulnerability}
    (h1 : sameCore a b) (h2 : sameCore b c) : sameCore a c :=
  ⟨h1.1.trans h2.1, h1.2.1.trans h2.2.1, h1.2.2.1.trans h2.2.2.1,
    h1.2.2.2.1.trans h2.2.2.2.1, h1.2.2.2.2.1.trans h2.2.2.2.2.1,
    h1.2.2.2.2.2.trans h2.2.2.2.2.2⟩

open Scanner SpecModel in
/-- Mutating the first condition-satisfying element with a boost keeps every
position core-equal to the original list. -/
lemma forall2_mutateFirst {P l : List Vulnerability} {c : Vulnerability → Bool}
    {ai : Vulnerability} (h : List.Forall₂ sameCore l P) :
    List.Forall₂ sameCore (mutateFirst c (fun p => boostOverlap p ai) l) P := by
  induction h with
  | nil => exact List.Forall₂.nil
  | @cons a b l₁ l₂ h1 h2 ih =>
    by_cases hc : c a
    · simp only [mutateFirst, hc, if_pos]
      exact List.Forall₂.cons (sameCore_trans (sameCore_boostOverlap a ai) h1) h2
    · simp only [mutateFirst, hc, if_neg, Bool.false_eq_true, not_false_iff]
      exact List.Forall₂.cons h1 ih

open Scanner SpecModel in
/-- Throughout the fusion fold the pattern part of the state stays pointwise
core-equal to the original pattern list. -/
lemma combine_fold_core (S : List Vulnerability) :
    ∀ (pats extra P : List Vulnerability), List.Forall₂ sameCore pats P →
      List.Forall₂ sameCore ((S.foldl combineStep (pats, extra)).1) P := by
  induction S with
  | nil => intro pats extra P h; simpa using h
  | cons ai S ih =>
    intro pats extra P h
    rw [List.foldl_cons]
    by_cases ho : pats.any (fun p => overlapTest p ai)
    · have hstep : combineStep (pats, extra) ai
          = (mutateFirst (fun p => lineClose p ai) (fun p => boostOverlap p ai) pats,
             extra) := by
        simp [combineStep, ho]
      rw [hstep]
      exact ih _ _ _ (forall2_mutateFirst h)
    · have hstep : combineStep (pats, extra) ai = (pats, extra ++ [hybridNew ai]) := by
        simp [combineStep, ho]
      rw [hstep]
      exact ih _ _ _ h

/-- C7: the merge is monotonic — the result is at least as long as the
pattern-finding list, and its first `|P|` positions are exactly the pattern
findings (same id, type, severity, line, column and message, i.e. possibly
annotated but never removed or reordered). -/
theorem merge_never_removes_pattern_findings
    (P S : List Scanner.Vulnerability) :
    P.length ≤ (Scanner.combineAnalysisResults P S).length ∧
    List.Forall₂ SpecModel.sameCore
      ((Scanner.combineAnalysisResults P S).take P.length) P := by
  have h0 : List.Forall₂ SpecModel.sameCore P P :=
    List.forall₂_same.mpr (fun x _ => ⟨rfl, rfl, rfl, rfl, rfl, rfl⟩)
  have hc := combine_fold_core S P [] P h0
  have hlen : ((S.foldl Scanner.combineStep (P, [])).1).length = P.length :=
    hc.length_eq
  constructor
  · simp only [Scanner.combineAnalysisResults, List.length_append]
    omega
  · simp only [Scanner.combineAnalysisResults]
    rw [← hlen, List.take_left]
    exact hc

/-- C1 counterexample: with a pattern XSS finding and a pattern SQL-Injection
finding on the same line and one semantic SQL-Injection finding, the claimed
algorithm mutates the type-matching SQL finding, but the code mutates the
first finding within one line — the XSS finding — because its `find` checks
only the line distance; the two results differ. -/
theorem merge_claimed_algorithm_counterexample :
    Scanner.combineAnalysisResults
        [⟨"p1", "XSS - innerHTML Assignment", .HIGH, 5, 0, "m1", "s1", 80, "PATTERN"⟩,
         ⟨"p2", "SQL Injection - String Concatenation", .CRITICAL, 5, 0, "m2", "s2",
          90, "PATTERN"⟩]
        [⟨"ai1", "SQL Injection Risk", .CRITICAL, 5, 0, "mj", "use parameterized queries",
          50, "AI"⟩]
      ≠ SpecModel.claimMerge
        [⟨"p1", "XSS - innerHTML Assignment", .HIGH, 5, 0, "m1", "s1", 80, "PATTERN"⟩,
         ⟨"p2", "SQL Injection - String Concatenation", .CRITICAL, 5, 0, "m2", "s2",
          90, "PATTERN"⟩]
        [⟨"ai1", "SQL Injection Risk", .CRITICAL, 5, 0, "mj", "use parameterized queries",
          50, "AI"⟩] := by
  decide

open Scanner SpecModel in
/-- The fusion fold coincides, state by state, with the amended description. -/
lemma combine_fold_amended (S : List Vulnerability) :
    ∀ pats extra : List Vulnerability,
      (S.foldl combineStep (pats, extra)).1 ++ (S.foldl combineStep (pats, extra)).2
        = amendedMergeAux pats extra S := by
  induction S with
  | nil => intro pats extra; rfl
  | cons j rest ih =>
    intro pats extra
    rw [List.foldl_cons]
    by_cases ho : pats.any (fun p => overlapTest p j)
    · have hstep : combineStep (pats, extra) j
          = (mutateFirst (fun p => lineClose p j) (fun p => boostOverlap p j) pats,
             extra) := by
        simp [combineStep, ho]
      rw [hstep, ih]
      simp [amendedMergeAux, ho]
    · have hstep : combineStep (pats, extra) j = (pats, extra ++ [hybridNew j]) := by
        simp [combineStep, ho]
      rw [hstep, ih]
      simp [amendedMergeAux, ho]

/-- C1 (amended): for every pattern list and semantic list, the merge
processes each semantic finding in input order; the overlap *test* asks for a
pattern finding within one line whose full type string contains
(case-insensitively, as a substring) the first space-delimited token of the
semantic finding's type; when no such finding exists the semantic finding is
appended with method hybrid and confidence `min(+10, 100)`; when one exists,
the finding mutated is the *first pattern finding within one line, its type
ignored*: confidence `min(+15, 100)`, method hybrid, and the semantic
suggestion — when non-empty and different — appended to (not replacing) the
pattern suggestion; appended semantic findings are never considered by later
overlap tests. -/
theorem merge_matches_amended_description
    (P S : List Scanner.Vulnerability) :
    Scanner.combineAnalysisResults P S = SpecModel.amendedMerge P S := by
  simp only [Scanner.combineAnalysisResults, SpecModel.amendedMerge]
  exact combine_fold_amended S P []

open Server in
/-- Accumulating the storage penalty loop over findings whose severities are
all in the weight table. -/
lemma storage_foldl_penalty (vs : List GVulnerability) :
    ∀ a : ℚ, (∀ v ∈ vs, (weightOf v.severity).isSome) →
      vs.foldl Storage.penaltyStep (some a)
        = some (a + (vs.map (fun v => (weightOf v.severity).getD 0 *
            (if v.confidence = 0 then 0.8 else v.confidence))).sum) := by
  induction vs with
  | nil => intro a _; simp
  | cons v vs ih =>
    intro a h
    obtain ⟨w, hw⟩ := Option.isSome_iff_exists.mp (h v (List.mem_cons_self v vs))
    rw [List.foldl_cons]
    have hstep : Storage.penaltyStep (some a) v
        = some (a + w * (if v.confidence = 0 then 0.8 else v.confidence)) := by
      simp [Storage.penaltyStep, hw]
    rw [hstep, ih _ (fun u hu => h u (List.mem_cons_of_mem _ hu))]
    simp [hw, add_assoc]

open Server in
/-- Accumulating the Gemini penalty reduce over findings whose severities are
all in the weight table. -/
lemma gemini_foldl_penalty (vs : List GVulnerability) :
    ∀ a : ℚ, (∀ v ∈ vs, (weightOf v.severity).isSome) →
      vs.foldl Gemini.penaltyStep (some a)
        = some (a + (vs.map (fun v => (weightOf v.severity).getD 0)).sum) := by
  induction vs with
  | nil => intro a _; simp
  | cons v vs ih =>
    intro a h
    obtain ⟨w, hw⟩ := Option.isSome_iff_exists.mp (h v (List.mem_cons_self v vs))
    rw [List.foldl_cons]
    have hstep : Gemini.penaltyStep (some a) v = some (a + w) := by
      simp [Gemini.penaltyStep, hw]
    rw [hstep, ih _ (fun u hu => h u (List.mem_cons_of_mem _ hu))]
    simp [hw, add_assoc]

open Server in
/-- The storage fallback score, in closed form, on known severities. -/
lemma storage_score_spec (vs : List GVulnerability)
    (h : ∀ v ∈ vs, (weightOf v.severity).isSome) :
    Storage.calculateFallbackScore vs = some (SpecModel.amendedStorageScore vs) := by
  by_cases hnil : vs = []
  · subst hnil; rfl
  · have hlen : ¬ vs.length = 0 := by simpa [List.length_eq_zero] using hnil
    simp only [Storage.calculateFallbackScore, SpecModel.amendedStorageScore]
    rw [if_neg hlen, if_neg hnil, storage_foldl_penalty vs 0 h]
    simp

open Server in
/-- The Gemini fallback score, in closed form, on known severities. -/
lemma gemini_score_spec (vs : List GVulnerability)
    (h : ∀ v ∈ vs, (weightOf v.severity).isSome) :
    Gemini.calculateFallbackScore vs = some (SpecModel.amendedGeminiScore vs) := by
  simp only [Gemini.calculateFallbackScore, SpecModel.amendedGeminiScore]
  rw [gemini_foldl_penalty vs 0 h]
  simp

/-- C3 counterexample: one critical finding with confidence 0.4 — the claimed
formula (weight × confidence, on the module's 0–100 scale) gives 100 − 25×0.4
= 90, but the Gemini module's `calculateFallbackScore` charges the full weight
regardless of confidence and returns 75. -/
theorem aggregate_score_claim_counterexample :
    Server.Gemini.calculateFallbackScore
        [⟨"SQL Injection", "critical", 1, "m", "s", 2/5⟩] = some 75 ∧
    SpecModel.claimAggregate 100
        [⟨"SQL Injection", "critical", 1, "m", "s", 2/5⟩] = 90 ∧
    (75 : ℚ) ≠ 90 := by
  refine ⟨?_, ?_, by norm_num⟩
  · simp [Server.Gemini.calculateFallbackScore, Server.Gemini.penaltyStep,
      Server.weightOf]
    norm_num
  · simp [SpecModel.claimAggregate, Server.weightOf, Server.jsRound]
    norm_num [Int.floor_eq_iff]

/-- C3 (amended): whenever every severity is a key of the weight table
`{critical: 25, high: 15, medium: 8, low: 3}`, the storage aggregator (0–10
scale) scores `10` on the empty list and otherwise
`round₁(max(0, 10 − (Σ weight × (confidence, 0 ↦ 0.8)) / 10))`, while the
Gemini-module aggregator (0–100 scale) scores `max(0, 100 − Σ weight)` with
the confidence ignored and no rounding. -/
theorem fallback_scores_match_amended_formulas (vs : List Server.GVulnerability)
    (h : ∀ v ∈ vs, (Server.weightOf v.severity).isSome) :
    Server.Storage.calculateFallbackScore vs
      = some (SpecModel.amendedStorageScore vs) ∧
    Server.Gemini.calculateFallbackScore vs
      = some (SpecModel.amendedGeminiScore vs) :=
  ⟨storage_score_spec vs h, gemini_score_spec vs h⟩

/-- C3 witness: the amended formulas instantiated at one concrete critical
finding with confidence 0.5. -/
theorem fallback_scores_match_amended_formulas_witness :
    (∀ v ∈ [(⟨"x", "critical", 1, "m", "s", 1/2⟩ : Server.GVulnerability)],
      (Server.weightOf v.severity).isSome) ∧
    (Server.Storage.calculateFallbackScore
        [⟨"x", "critical", 1, "m", "s", 1/2⟩]
      = some (SpecModel.amendedStorageScore [⟨"x", "critical", 1, "m", "s", 1/2⟩]) ∧
    Server.Gemini.calculateFallbackScore
        [⟨"x", "critical", 1, "m", "s", 1/2⟩]
      = some (SpecModel.amendedGeminiScore [⟨"x", "critical", 1, "m", "s", 1/2⟩])) :=
  ⟨by decide,
   fallback_scores_match_amended_formulas [⟨"x", "critical", 1, "m", "s", 1/2⟩]
     (by decide)⟩

open Server in
/-- The normalized severity of any collaborator string is a key of the weight
table. -/
lemma weightOf_normalize_isSome (s : String) :
    (weightOf (normalizeSeverity s)).isSome := by
  by_cases h : s ∈ severityNames
  · rw [normalizeSeverity, if_pos h]
    simp only [severityNames, List.mem_cons, List.mem_singleton,
      List.not_mem_nil, or_false] at h
    rcases h with rfl | rfl | rfl | rfl <;> rfl
  · rw [normalizeSeverity, if_neg h]
    rfl

/-- C5 counterexample: a collaborator finding with severity `"banana"` is
normalized to `"medium"` (weight 8), not to `"low"` (weight 3): scoring one
such full-confidence finding yields 92, where a low-severity finding would
yield 97. -/
theorem unknown_severity_scored_as_medium_counterexample :
    Server.normalizeSeverity "banana" = "medium" ∧
    Server.normalizeSeverity "banana" ≠ "low" ∧
    Server.weightOf "medium" = some 8 ∧
    Server.weightOf "low" = some 3 ∧
    Server.Gemini.calculateFallbackScore
        [⟨"x", Server.normalizeSeverity "banana", 1, "m", "s", 1⟩] = some 92 ∧
    Server.Gemini.calculateFallbackScore
        [⟨"x", "low", 1, "m", "s", 1⟩] = some 97 := by
  refine ⟨by decide, by decide, rfl, rfl, ?_, ?_⟩ <;>
    · simp [Server.Gemini.calculateFallbackScore, Server.Gemini.penaltyStep,
        Server.weightOf, Server.normalizeSeverity, Server.severityNames]
      norm_num

/-- C5 (amended): a collaborator finding whose severity is not one of low,
medium, high, critical is treated as *medium* (not low) by the engine's
normalization, and because every normalized severity is a key of the weight
table, both aggregators are total on normalized findings — the aggregation
never raises because of an unknown severity. -/
theorem unknown_severity_normalized_to_medium (s : String)
    (h : s ∉ Server.severityNames) :
    Server.normalizeSeverity s = "medium" ∧
    (Server.weightOf (Server.normalizeSeverity s)).isSome ∧
    ∀ vs : List Server.GVulnerability,
      (∀ v ∈ vs, ∃ s', v.severity = Server.normalizeSeverity s') →
      (Server.Gemini.calculateFallbackScore vs).isSome ∧
      (Server.Storage.calculateFallbackScore vs).isSome := by
  refine ⟨by rw [Server.normalizeSeverity, if_neg h], weightOf_normalize_isSome s, ?_⟩
  intro vs hvs
  have hws : ∀ v ∈ vs, (Server.weightOf v.severity).isSome := by
    intro v hv
    obtain ⟨s', hs'⟩ := hvs v hv
    rw [hs']
    exact weightOf_normalize_isSome s'
  exact ⟨by rw [gemini_score_spec vs hws]; rfl, by rw [storage_score_spec vs hws]; rfl⟩

/-- C5 witness: the amended statement instantiated at the unknown severity
`"banana"`. -/
theorem unknown_severity_normalized_to_medium_witness :
    "banana" ∉ Server.severityNames ∧
    (Server.normalizeSeverity "banana" = "medium" ∧
    (Server.weightOf (Server.normalizeSeverity "banana")).isSome ∧
    ∀ vs : List Server.GVulnerability,
      (∀ v ∈ vs, ∃ s', v.severity = Server.normalizeSeverity s') →
      (Server.Gemini.calculateFallbackScore vs).isSome ∧
      (Server.Storage.calculateFallbackScore vs).isSome) :=
  ⟨by decide, unknown_severity_normalized_to_medium "banana" (by decide)⟩
